import Mathlib

/-!
Verification of the request-validation-and-dispatch shim in src/main.py
(dinnercaster3-aws).

Embedding choices, from the source:

* A Python `str` body is a sequence of Unicode code points, modelled as
  `List Nat`; a `bytes` body is a byte sequence, modelled as `List Nat`
  with values below 256.
* The Lambda `event` is a mapping with an optional `body` entry plus
  other entries the shim never inspects; it is modelled as a structure
  with a `body : Option (Body w)` field and an opaque `rest` field.  A
  body that is neither `str` nor `bytes` is `Body.other v` with `v` drawn
  from an arbitrary type `w`.
* The external MCP dispatcher (`mcp.handle_request`) is a parameter that
  either returns a response or raises an exception carrying its string
  form, modelled by `DResult`.
* `json.loads` is an external library routine; it is modelled as a
  parameter `jloads : List Nat -> Option String` returning `none` on a
  successful parse and `some msg` when it raises a JSONDecodeError whose
  string form is `msg`.
* `bytes.decode` with the UTF-8 codec is deterministic and is implemented
  here in full (`utf8Decode`), following the strict UTF-8 table: no
  overlong forms, no surrogates, nothing above 0x10FFFF.
* The local error responses are Python dicts
  `{statusCode, body: json.dumps({error, details})}`; they are modelled
  structurally by `LHResp.err` whose `details` field records exactly the
  data interpolated into the corresponding f-string (body length,
  100-element preview, exception value), one `Details` constructor per
  f-string shape in the source.
* In-place mutation of `event` (line 55 of main.py, `event['body'] =
  body_str`) is modelled by state passing: `lambda_handler` returns both
  the response and the final state of the event.
-/

namespace Dinnercaster

/-- A Python value stored under the key `body` of the event: a text
string (code points), a byte string, or any other value, which the shim
never inspects. -/
inductive Body (w : Type) where
  | str (s : List Nat)
  | bytes (b : List Nat)
  | other (v : w)
deriving Repr

/-- The Lambda event: an optional `body` entry plus the remaining
entries (method, headers, ...), which the shim never reads or writes,
collapsed into the opaque field `rest`. -/
structure Event (w r : Type) where
  body : Option (Body w)
  rest : r
deriving Repr

/-- Outcome of calling the external dispatcher `mcp.handle_request`:
either a response object or a raised exception, carrying its Python
string form. -/
inductive DResult (p : Type) where
  | ok (r : p)
  | exn (msg : String)
deriving Repr

/-- The exception value interpolated into the f-string of the
`except (UnicodeDecodeError, json.JSONDecodeError)` handler on the
binary-body path: either a UTF-8 decoding error or a JSON decoding
error. -/
inductive ExnVal where
  | udecode (e : Nat)
  | jdecode (e : String)
deriving Repr, DecidableEq

/-- The `details` field of a locally produced error body, recorded
structurally: one constructor per f-string in the source.

* `lenPreview n p`: the string `Body length: n, first 100 chars:
  repr p` used by both control-character rejections (lines 27 and 50).
* `parsePreview e p`: the string `e, body preview: repr p` used by the
  textual invalid-JSON rejection (line 37).
* `rawPreview e p`: the string `e, raw body preview: repr p` used by
  the binary-path rejection (line 61), where `p` is a raw byte preview.
* `exnStr e`: the string form of the exception, used by the top-level
  500 handler (line 71). -/
inductive Details where
  | lenPreview (len : Nat) (preview : List Nat)
  | parsePreview (e : String) (preview : List Nat)
  | rawPreview (e : ExnVal) (preview : List Nat)
  | exnStr (e : String)
deriving Repr

/-- A response returned across the invocation boundary: either a locally
produced error dict `{statusCode, body: json.dumps({error, details})}`
or the external response returned by the dispatcher, passed through
verbatim. -/
inductive LHResp (p : Type) where
  | err (statusCode : Nat) (error : String) (details : Details)
  | dispatched (r : p)
deriving Repr

/-- The tool function of src/main.py line 5: zero inputs, returns the
literal string Tacos.  The `Unit` argument models one invocation. -/
def dinnercaster (_ : Unit) : String := "Tacos"

/-- The fixed vocabulary the spec assigns to the tool function: here the
singleton containing Tacos. -/
def dinnercasterVocab : List String := ["Tacos"]

/-- Line 22 / line 45 of main.py: does the string contain a character
with code point below 32 other than tab (9), newline (10) or carriage
return (13)? -/
def hasBadCtrl (s : List Nat) : Bool :=
  s.any (fun c => decide (c < 32 ∧ c ≠ 9 ∧ c ≠ 10 ∧ c ≠ 13))

/-- Is the byte a UTF-8 continuation byte (0x80 to 0xBF)? -/
def isCont (c : Nat) : Bool := decide (0x80 ≤ c ∧ c ≤ 0xBF)

/-- Valid range of the first continuation byte after lead byte `b`,
per the strict UTF-8 table (excludes overlong forms, surrogates and
code points above 0x10FFFF). -/
def firstContOk (b c : Nat) : Bool :=
  if b = 0xE0 then decide (0xA0 ≤ c ∧ c ≤ 0xBF)
  else if b = 0xED then decide (0x80 ≤ c ∧ c ≤ 0x9F)
  else if b = 0xF0 then decide (0x90 ≤ c ∧ c ≤ 0xBF)
  else if b = 0xF4 then decide (0x80 ≤ c ∧ c ≤ 0x8F)
  else isCont c

/-- Strict UTF-8 decoding of a byte list into code points, as performed
by `bytes.decode` with the UTF-8 codec.  On failure it returns the index
of the offending sequence start, the data carried by the
UnicodeDecodeError.  `pos` is the index of the current byte. -/
def utf8DecodeGo (pos : Nat) : List Nat → Except Nat (List Nat)
  | [] => Except.ok []
  | b :: t =>
    if b < 0x80 then
      (utf8DecodeGo (pos + 1) t).map (fun s => b :: s)
    else if 0xC2 ≤ b ∧ b ≤ 0xDF then
      match t with
      | c1 :: t1 =>
        if isCont c1 then
          (utf8DecodeGo (pos + 2) t1).map
            (fun s => ((b - 0xC0) * 64 + (c1 - 0x80)) :: s)
        else Except.error pos
      | [] => Except.error pos
    else if 0xE0 ≤ b ∧ b ≤ 0xEF then
      match t with
      | c1 :: c2 :: t2 =>
        if firstContOk b c1 && isCont c2 then
          (utf8DecodeGo (pos + 3) t2).map
            (fun s => ((b - 0xE0) * 4096 + (c1 - 0x80) * 64 + (c2 - 0x80)) :: s)
        else Except.error pos
      | _ => Except.error pos
    else if 0xF0 ≤ b ∧ b ≤ 0xF4 then
      match t with
      | c1 :: c2 :: c3 :: t3 =>
        if firstContOk b c1 && isCont c2 && isCont c3 then
          (utf8DecodeGo (pos + 4) t3).map
            (fun s => ((b - 0xF0) * 262144 + (c1 - 0x80) * 4096
                        + (c2 - 0x80) * 64 + (c3 - 0x80)) :: s)
        else Except.error pos
      | _ => Except.error pos
    else Except.error pos

/-- UTF-8 decoding of a full byte string, starting at index 0. -/
def utf8Decode (b : List Nat) : Except Nat (List Nat) := utf8DecodeGo 0 b

/-- Line 65 wrapped by the try of line 14: call the dispatcher on the
current event; a raised exception is converted by the top-level handler
(lines 66 to 73) into the 500 response with the generic message and the
exception string in `details`. -/
def dispatchStep {w r p c : Type} (d : Event w r → c → DResult p)
    (ev : Event w r) (ctx : c) : LHResp p × Event w r :=
  match d ev ctx with
  | DResult.ok resp => (LHResp.dispatched resp, ev)
  | DResult.exn m =>
      (LHResp.err 500 "Internal server error" (Details.exnStr m), ev)

/-- The Lambda entry point, src/main.py lines 10 to 73, with the
external dispatcher `d` and the external JSON parser `jloads` as
parameters.  Returns the response together with the final state of the
event (the event is mutated in place only at line 55). -/
def lambda_handler {w r p c : Type} (d : Event w r → c → DResult p)
    (jloads : List Nat → Option String) (event : Event w r) (ctx : c) :
    LHResp p × Event w r :=
  match event.body with
  | some (Body.str s) =>
      if hasBadCtrl s then
        (LHResp.err 400 "Request body contains invalid control characters"
          (Details.lenPreview s.length (s.take 100)), event)
      else
        match jloads s with
        | some e =>
            (LHResp.err 400 "Invalid JSON in request body"
              (Details.parsePreview e (s.take 100)), event)
        | none => dispatchStep d event ctx
  | some (Body.bytes b) =>
      match utf8Decode b with
      | Except.error e =>
          (LHResp.err 400 "Invalid request body format"
            (Details.rawPreview (ExnVal.udecode e) (b.take 100)), event)
      | Except.ok s =>
          if hasBadCtrl s then
            (LHResp.err 400
              "Decoded request body contains invalid control characters"
              (Details.lenPreview s.length (s.take 100)), event)
          else
            match jloads s with
            | some e =>
                (LHResp.err 400 "Invalid request body format"
                  (Details.rawPreview (ExnVal.jdecode e) (b.take 100)), event)
            | none =>
                dispatchStep d { event with body := some (Body.str s) } ctx
  | some (Body.other _) => dispatchStep d event ctx
  | none => dispatchStep d event ctx


/-! Concrete collaborators used by closed witnesses and counterexamples. -/

/-- A dispatcher that always returns the response 0. -/
def dispatchOk {w r : Type} : Event w r → Unit → DResult Nat :=
  fun _ _ => DResult.ok 0

/-- A dispatcher that always raises an exception whose string form is
boom. -/
def dispatchBoom {w r : Type} : Event w r → Unit → DResult Nat :=
  fun _ _ => DResult.exn "boom"

/-- A concrete instance of the `json.loads` parameter, agreeing with the
real parser on the inputs used in witnesses: it accepts the two-character
body consisting of an opening and a closing curly brace (a valid empty
JSON object) and rejects everything else, in particular the
one-character body BEL (code point 7), with the message the real parser
produces there. -/
def jsonLoadsModel : List Nat → Option String :=
  fun s => if s = [123, 125] then none
    else some "Expecting value: line 1 column 1 (char 0)"

/-! Claim theorems. -/

/-- C1: whenever the dispatcher call raises an exception (string form
`m`), the handler either has already produced a 400 validation response,
or it catches the exception and returns statusCode 500 with error field
Internal server error and details the string form of the exception; no
input makes `lambda_handler` propagate a fault, since it is a total
function into responses. -/
theorem c1_unhandled_exception_becomes_500 {w r p c : Type}
    (d : Event w r → c → DResult p) (j : List Nat → Option String)
    (e : Event w r) (ctx : c) (m : String)
    (h : ∀ ev : Event w r, d ev ctx = DResult.exn m) :
    (∃ msg det, (lambda_handler d j e ctx).1 = LHResp.err 400 msg det) ∨
    (lambda_handler d j e ctx).1 =
      LHResp.err 500 "Internal server error" (Details.exnStr m) := by
  rcases e with ⟨bd, rest⟩
  rcases bd with _ | bd
  · exact Or.inr (by simp [lambda_handler, dispatchStep, h])
  rcases bd with s | b | v
  · by_cases hc : hasBadCtrl s
    · exact Or.inl ⟨"Request body contains invalid control characters",
        Details.lenPreview s.length (s.take 100), by simp [lambda_handler, hc]⟩
    · cases hj : j s with
      | some msg =>
        exact Or.inl ⟨"Invalid JSON in request body",
          Details.parsePreview msg (s.take 100), by simp [lambda_handler, hc, hj]⟩
      | none => exact Or.inr (by simp [lambda_handler, hc, hj, dispatchStep, h])
  · cases hdec : utf8Decode b with
    | error er =>
      exact Or.inl ⟨"Invalid request body format",
        Details.rawPreview (ExnVal.udecode er) (b.take 100),
        by simp [lambda_handler, hdec]⟩
    | ok s =>
      by_cases hc : hasBadCtrl s
      · exact Or.inl ⟨"Decoded request body contains invalid control characters",
          Details.lenPreview s.length (s.take 100),
          by simp [lambda_handler, hdec, hc]⟩
      · cases hj : j s with
        | some msg =>
          exact Or.inl ⟨"Invalid request body format",
            Details.rawPreview (ExnVal.jdecode msg) (b.take 100),
            by simp [lambda_handler, hdec, hc, hj]⟩
        | none =>
          exact Or.inr (by simp [lambda_handler, hdec, hc, hj, dispatchStep, h])
  · exact Or.inr (by simp [lambda_handler, dispatchStep, h])

/-- C1 witness: with a dispatcher that always raises boom and an absent
body, the handler returns the 500 response with details boom. -/
theorem c1_witness :
    (∃ msg det,
      (lambda_handler dispatchBoom jsonLoadsModel
        (⟨none, ()⟩ : Event Unit Unit) ()).1 = LHResp.err 400 msg det) ∨
    (lambda_handler dispatchBoom jsonLoadsModel
      (⟨none, ()⟩ : Event Unit Unit) ()).1 =
      LHResp.err 500 "Internal server error" (Details.exnStr "boom") :=
  c1_unhandled_exception_becomes_500 dispatchBoom jsonLoadsModel
    ⟨none, ()⟩ () "boom" (fun _ => rfl)


/-- C2: for an event with no body, or with a string body free of
disallowed control characters that the JSON parser accepts, the handler
delegates to the dispatcher with the event unchanged (body included) and
returns the dispatcher response verbatim; the final event state equals
the original event. -/
theorem c2_clean_body_delegates_verbatim {w r p c : Type}
    (d : Event w r → c → DResult p) (j : List Nat → Option String)
    (e : Event w r) (ctx : c) (resp : p)
    (h : e.body = none ∨
      ∃ s, e.body = some (Body.str s) ∧ hasBadCtrl s = false ∧ j s = none)
    (hd : d e ctx = DResult.ok resp) :
    lambda_handler d j e ctx = (LHResp.dispatched resp, e) := by
  rcases h with h | ⟨s, hb, hc, hj⟩
  · simp [lambda_handler, h, dispatchStep, hd]
  · simp [lambda_handler, hb, hc, hj, dispatchStep, hd]

/-- C2 witness: an empty JSON object body (curly braces), free of
control characters and accepted by the parser, is delegated verbatim. -/
theorem c2_witness :
    lambda_handler dispatchOk jsonLoadsModel
      (⟨some (Body.str [123, 125]), ()⟩ : Event Unit Unit) () =
    (LHResp.dispatched 0, ⟨some (Body.str [123, 125]), ()⟩) :=
  c2_clean_body_delegates_verbatim dispatchOk jsonLoadsModel
    ⟨some (Body.str [123, 125]), ()⟩ () 0
    (Or.inr ⟨[123, 125], rfl, by decide, rfl⟩) rfl

/-- C3: a string body containing a character with code point below 32
other than tab, newline or carriage return is rejected with statusCode
400, error field Request body contains invalid control characters, and
details recording the body length and the first 100 characters; the
event is returned unchanged. -/
theorem c3_ctrl_char_rejected_400 {w r p c : Type}
    (d : Event w r → c → DResult p) (j : List Nat → Option String)
    (e : Event w r) (ctx : c) (s : List Nat)
    (hb : e.body = some (Body.str s)) (hc : hasBadCtrl s = true) :
    lambda_handler d j e ctx =
      (LHResp.err 400 "Request body contains invalid control characters"
        (Details.lenPreview s.length (s.take 100)), e) := by
  simp [lambda_handler, hb, hc]

/-- C3 witness: the one-character body BEL (code point 7) is rejected
with the control-character message. -/
theorem c3_witness :
    lambda_handler dispatchOk jsonLoadsModel
      (⟨some (Body.str [7]), ()⟩ : Event Unit Unit) () =
    (LHResp.err 400 "Request body contains invalid control characters"
      (Details.lenPreview 1 [7]), ⟨some (Body.str [7]), ()⟩) :=
  c3_ctrl_char_rejected_400 dispatchOk jsonLoadsModel
    ⟨some (Body.str [7]), ()⟩ () [7] rfl (by decide)

/-- C4 counterexample: the claim omits the control-character
precondition.  The one-character body BEL (code point 7) is not valid
JSON (the modelled parser rejects it with the message the real parser
produces), yet the handler returns the control-character error, not
Invalid JSON in request body. -/
theorem c4_counterexample_ctrl_char_body :
    jsonLoadsModel [7] = some "Expecting value: line 1 column 1 (char 0)" ∧
    (lambda_handler dispatchOk jsonLoadsModel
      (⟨some (Body.str [7]), ()⟩ : Event Unit Unit) ()).1 =
      LHResp.err 400 "Request body contains invalid control characters"
        (Details.lenPreview 1 [7]) ∧
    "Request body contains invalid control characters" ≠
      "Invalid JSON in request body" :=
  ⟨rfl, rfl, by decide⟩

/-- C4 amended: a string body that passes the control-character check
but is rejected by the JSON parser yields statusCode 400, error field
Invalid JSON in request body, and details carrying the parser message
and the first 100 characters of the body; the event is returned
unchanged. -/
theorem c4_invalid_json_rejected_400 {w r p c : Type}
    (d : Event w r → c → DResult p) (j : List Nat → Option String)
    (e : Event w r) (ctx : c) (s : List Nat) (msg : String)
    (hb : e.body = some (Body.str s)) (hc : hasBadCtrl s = false)
    (hj : j s = some msg) :
    lambda_handler d j e ctx =
      (LHResp.err 400 "Invalid JSON in request body"
        (Details.parsePreview msg (s.take 100)), e) := by
  simp [lambda_handler, hb, hc, hj]

/-- C4 witness: the one-character body consisting of an opening curly
brace is rejected by the modelled parser and yields the invalid-JSON
response. -/
theorem c4_witness :
    lambda_handler dispatchOk jsonLoadsModel
      (⟨some (Body.str [123]), ()⟩ : Event Unit Unit) () =
    (LHResp.err 400 "Invalid JSON in request body"
      (Details.parsePreview "Expecting value: line 1 column 1 (char 0)" [123]),
      ⟨some (Body.str [123]), ()⟩) :=
  c4_invalid_json_rejected_400 dispatchOk jsonLoadsModel
    ⟨some (Body.str [123]), ()⟩ () [123]
    "Expecting value: line 1 column 1 (char 0)" rfl (by decide) rfl


/-- C5 counterexample: the claim asserts the binary path produces the
same 400 response, including the same error field, as the textual path
on equal text.  The byte body consisting of the single byte 7 decodes to
the one-character text BEL; the binary path answers with error field
Decoded request body contains invalid control characters while the
textual path on the same text answers with Request body contains invalid
control characters, and the two messages differ. -/
theorem c5_counterexample_messages_differ :
    utf8Decode [7] = Except.ok [7] ∧
    (lambda_handler dispatchOk jsonLoadsModel
      (⟨some (Body.bytes [7]), ()⟩ : Event Unit Unit) ()).1 =
      LHResp.err 400
        "Decoded request body contains invalid control characters"
        (Details.lenPreview 1 [7]) ∧
    (lambda_handler dispatchOk jsonLoadsModel
      (⟨some (Body.str [7]), ()⟩ : Event Unit Unit) ()).1 =
      LHResp.err 400 "Request body contains invalid control characters"
        (Details.lenPreview 1 [7]) ∧
    "Decoded request body contains invalid control characters" ≠
      "Request body contains invalid control characters" :=
  ⟨rfl, rfl, rfl, by decide⟩

/-- C5 amended: on a byte body that decodes to text `s`, the binary path
runs the same control-character check and the same JSON parse as the
textual path on `s`, rejecting in exactly the same cases and always with
statusCode 400, but with different payloads: the control-character
rejection carries error field Decoded request body contains invalid
control characters (same details as the textual path), and the
JSON-parse rejection carries error field Invalid request body format
with a raw-byte preview instead of the textual invalid-JSON response.
When both checks pass, the two paths dispatch the same body-replaced
event. -/
theorem c5_decoded_checks_agree_messages_differ {w r p c : Type}
    (d : Event w r → c → DResult p) (j : List Nat → Option String)
    (e : Event w r) (ctx : c) (b s : List Nat)
    (hb : e.body = some (Body.bytes b)) (hdec : utf8Decode b = Except.ok s) :
    (hasBadCtrl s = true →
      (lambda_handler d j e ctx).1 =
        LHResp.err 400
          "Decoded request body contains invalid control characters"
          (Details.lenPreview s.length (s.take 100)) ∧
      (lambda_handler d j { e with body := some (Body.str s) } ctx).1 =
        LHResp.err 400 "Request body contains invalid control characters"
          (Details.lenPreview s.length (s.take 100))) ∧
    (∀ msg, hasBadCtrl s = false → j s = some msg →
      (lambda_handler d j e ctx).1 =
        LHResp.err 400 "Invalid request body format"
          (Details.rawPreview (ExnVal.jdecode msg) (b.take 100)) ∧
      (lambda_handler d j { e with body := some (Body.str s) } ctx).1 =
        LHResp.err 400 "Invalid JSON in request body"
          (Details.parsePreview msg (s.take 100))) ∧
    (hasBadCtrl s = false → j s = none →
      lambda_handler d j e ctx =
        dispatchStep d { e with body := some (Body.str s) } ctx ∧
      lambda_handler d j { e with body := some (Body.str s) } ctx =
        dispatchStep d { e with body := some (Body.str s) } ctx) := by
  refine ⟨fun hc => ?_, fun msg hc hj => ?_, fun hc hj => ?_⟩
  · constructor
    · simp [lambda_handler, hb, hdec, hc]
    · simp [lambda_handler, hc]
  · constructor
    · simp [lambda_handler, hb, hdec, hc, hj]
    · simp [lambda_handler, hc, hj]
  · constructor
    · simp [lambda_handler, hb, hdec, hc, hj]
    · simp [lambda_handler, hc, hj]

/-- C5 witness: the single-byte body 7 decodes to the text BEL, which
fails the control-character check, so the binary path returns the
decoded-body control-character message while the textual path on the
same text returns the plain control-character message. -/
theorem c5_witness :
    (lambda_handler dispatchOk jsonLoadsModel
      (⟨some (Body.bytes [7]), ()⟩ : Event Unit Unit) ()).1 =
      LHResp.err 400
        "Decoded request body contains invalid control characters"
        (Details.lenPreview 1 [7]) ∧
    (lambda_handler dispatchOk jsonLoadsModel
      (⟨some (Body.str [7]), ()⟩ : Event Unit Unit) ()).1 =
      LHResp.err 400 "Request body contains invalid control characters"
        (Details.lenPreview 1 [7]) :=
  (c5_decoded_checks_agree_messages_differ dispatchOk jsonLoadsModel
    ⟨some (Body.bytes [7]), ()⟩ () [7] [7] rfl rfl).1 (by decide)

/-- C6: a byte body that fails UTF-8 decoding is rejected with
statusCode 400, error field Invalid request body format, and details
carrying the decoding error and the first 100 raw bytes; the event is
returned unchanged. -/
theorem c6_undecodable_bytes_rejected_400 {w r p c : Type}
    (d : Event w r → c → DResult p) (j : List Nat → Option String)
    (e : Event w r) (ctx : c) (b : List Nat) (er : Nat)
    (hb : e.body = some (Body.bytes b)) (hdec : utf8Decode b = Except.error er) :
    lambda_handler d j e ctx =
      (LHResp.err 400 "Invalid request body format"
        (Details.rawPreview (ExnVal.udecode er) (b.take 100)), e) := by
  simp [lambda_handler, hb, hdec]

/-- C6 witness: the byte pair 0xFF 0xFE is not valid UTF-8 (0xFF is not
a legal lead byte) and is rejected with the invalid-format message. -/
theorem c6_witness :
    lambda_handler dispatchOk jsonLoadsModel
      (⟨some (Body.bytes [255, 254]), ()⟩ : Event Unit Unit) () =
    (LHResp.err 400 "Invalid request body format"
      (Details.rawPreview (ExnVal.udecode 0) [255, 254]),
      ⟨some (Body.bytes [255, 254]), ()⟩) :=
  c6_undecodable_bytes_rejected_400 dispatchOk jsonLoadsModel
    ⟨some (Body.bytes [255, 254]), ()⟩ () [255, 254] 0 rfl rfl

/-- C7: a byte body that decodes to text `s` passing both the
control-character check and the JSON parse has the body replaced by the
decoded text, every other event field (the `rest` projection) left
unchanged, and the body-replaced event delegated to the dispatcher,
whose response is returned. -/
theorem c7_decoded_body_replaced_and_dispatched {w r p c : Type}
    (d : Event w r → c → DResult p) (j : List Nat → Option String)
    (e : Event w r) (ctx : c) (b s : List Nat) (resp : p)
    (hb : e.body = some (Body.bytes b)) (hdec : utf8Decode b = Except.ok s)
    (hc : hasBadCtrl s = false) (hj : j s = none)
    (hd : d { e with body := some (Body.str s) } ctx = DResult.ok resp) :
    lambda_handler d j e ctx =
      (LHResp.dispatched resp, { e with body := some (Body.str s) }) ∧
    ((lambda_handler d j e ctx).2).rest = e.rest := by
  have h : lambda_handler d j e ctx =
      (LHResp.dispatched resp, { e with body := some (Body.str s) }) := by
    simp [lambda_handler, hb, hdec, hc, hj, dispatchStep, hd]
  exact ⟨h, by simp [h]⟩

/-- C7 witness: the byte body of an opening and closing curly brace
decodes to the empty JSON object text, passes both checks, and is
dispatched with the body replaced by the decoded string. -/
theorem c7_witness :
    lambda_handler dispatchOk jsonLoadsModel
      (⟨some (Body.bytes [123, 125]), ()⟩ : Event Unit Unit) () =
      (LHResp.dispatched 0, ⟨some (Body.str [123, 125]), ()⟩) ∧
    ((lambda_handler dispatchOk jsonLoadsModel
      (⟨some (Body.bytes [123, 125]), ()⟩ : Event Unit Unit) ()).2).rest = () :=
  c7_decoded_body_replaced_and_dispatched dispatchOk jsonLoadsModel
    ⟨some (Body.bytes [123, 125]), ()⟩ () [123, 125] [123, 125] 0
    rfl rfl (by decide) rfl rfl


/-- C8: the tool function takes no input beyond the invocation itself,
is pure (a total Lean function, hence no side effects and no raised
exception), always returns a member of the fixed vocabulary (the
singleton containing Tacos), and any two invocations return equal
results. -/
theorem c8_dinnercaster_fixed_vocab :
    ∀ u v : Unit,
      dinnercaster u ∈ dinnercasterVocab ∧ dinnercaster u = dinnercaster v :=
  fun _ _ => ⟨by simp [dinnercaster, dinnercasterVocab], rfl⟩

/-- C9: a body that is neither a string nor a byte sequence skips every
validation step: the handler delegates to the dispatcher with the event
unchanged and returns its response. -/
theorem c9_other_body_skips_validation {w r p c : Type}
    (d : Event w r → c → DResult p) (j : List Nat → Option String)
    (e : Event w r) (ctx : c) (v : w) (resp : p)
    (hb : e.body = some (Body.other v)) (hd : d e ctx = DResult.ok resp) :
    lambda_handler d j e ctx = (LHResp.dispatched resp, e) := by
  simp [lambda_handler, hb, dispatchStep, hd]

/-- C9 witness: a numeric body (modelled by the opaque value 5 of the
other-value type) is delegated unchanged. -/
theorem c9_witness :
    lambda_handler dispatchOk jsonLoadsModel
      (⟨some (Body.other 5), ()⟩ : Event Nat Unit) () =
    (LHResp.dispatched 0, ⟨some (Body.other 5), ()⟩) :=
  c9_other_body_skips_validation dispatchOk jsonLoadsModel
    ⟨some (Body.other 5), ()⟩ () 5 0 rfl rfl

/-- C10: whenever the handler returns a locally produced 400 validation
response, the final event state equals the original event: the body is
reassigned only on the fully successful binary path, which never
produces a 400. -/
theorem c10_error_paths_leave_event_unchanged {w r p c : Type}
    (d : Event w r → c → DResult p) (j : List Nat → Option String)
    (e : Event w r) (ctx : c) (msg : String) (det : Details)
    (h : (lambda_handler d j e ctx).1 = LHResp.err 400 msg det) :
    (lambda_handler d j e ctx).2 = e := by
  rcases e with ⟨bd, rest⟩
  rcases bd with _ | bd
  · cases hd : d ⟨none, rest⟩ ctx <;>
      simp [lambda_handler, dispatchStep, hd]
  rcases bd with s | b | v
  · by_cases hc : hasBadCtrl s
    · simp [lambda_handler, hc]
    · cases hj : j s with
      | some m => simp [lambda_handler, hc, hj]
      | none =>
        cases hd : d ⟨some (Body.str s), rest⟩ ctx <;>
          simp [lambda_handler, hc, hj, dispatchStep, hd]
  · cases hdec : utf8Decode b with
    | error er => simp [lambda_handler, hdec]
    | ok s =>
      by_cases hc : hasBadCtrl s
      · simp [lambda_handler, hdec, hc]
      · cases hj : j s with
        | some m => simp [lambda_handler, hdec, hc, hj]
        | none =>
          cases hd : d ⟨some (Body.str s), rest⟩ ctx with
          | ok resp =>
            simp [lambda_handler, hdec, hc, hj, dispatchStep, hd] at h
          | exn m =>
            simp [lambda_handler, hdec, hc, hj, dispatchStep, hd] at h
  · cases hd : d ⟨some (Body.other v), rest⟩ ctx <;>
      simp [lambda_handler, dispatchStep, hd]

/-- C10 witness: on the control-character rejection of the body BEL the
final event state equals the original event. -/
theorem c10_witness :
    (lambda_handler dispatchOk jsonLoadsModel
      (⟨some (Body.str [7]), ()⟩ : Event Unit Unit) ()).2 =
    (⟨some (Body.str [7]), ()⟩ : Event Unit Unit) :=
  c10_error_paths_leave_event_unchanged dispatchOk jsonLoadsModel
    ⟨some (Body.str [7]), ()⟩ ()
    "Request body contains invalid control characters"
    (Details.lenPreview 1 [7]) rfl

end Dinnercaster
